import Mathlib

/-!
Verification of the Artifex Canvas torn-paper rendering pipeline
(`src/components/image-preview.tsx`) against its specification.

The numeric computations of the pipeline are embedded shallowly:
JavaScript numbers are modelled as `ℚ` where only field arithmetic,
comparisons and floors occur, and as `ℝ` where the code calls the
trigonometric functions `Math.sin` / `Math.cos`.  JavaScript's
`Math.random()` is modelled by explicit streams of values in `[0, 1)`.
A JavaScript division whose denominator is zero yields a non-finite
value (`NaN` or `±Infinity`); where that matters it is modelled by
`jsDiv : ℚ → ℚ → Option ℚ` returning `none`.
-/

namespace ArtifexCanvas

/-- `mapRange` from image-preview.tsx lines 14–17: linear interpolation
with a defined fallback (`outMin`) when the input range is empty. -/
def mapRange {α : Type} [LinearOrderedField α]
    (value inMin inMax outMin outMax : α) : α :=
  if inMin = inMax then outMin
  else ((value - inMin) * (outMax - outMin)) / (inMax - inMin) + outMin

/-- `cosineInterpolate` from image-preview.tsx lines 19–22. -/
noncomputable def cosineInterpolate (y1 y2 mu : ℝ) : ℝ :=
  let mu2 := (1 - Real.cos (mu * Real.pi)) / 2
  y1 * (1 - mu2) + y2 * mu2

/-- `imageContentScale` from image-preview.tsx line 165:
`mapRange(effects.animSize, 10, 100, 0.2, 1.0)`. -/
def imageContentScale (size : ℚ) : ℚ :=
  mapRange size 10 100 0.2 1.0

/-- The geometry derived by the render effect (image-preview.tsx
lines 160–184): the clamped content size, the border thickness and the
final canvas size. -/
structure Geometry where
  contentWidth : ℚ
  contentHeight : ℚ
  borderThickness : ℚ
  canvasWidth : ℚ
  canvasHeight : ℚ
deriving DecidableEq, Repr

/-- Geometry computation of image-preview.tsx lines 160–184: scale the
source image by `imageContentScale`, clamp to the container bounds
(width first, then height, each preserving the aspect ratio computed
from the scaled size), then derive the border thickness
`mapRange(edgeThickness, 0, 100, 0, min(w, h) * 0.25)` and the final
canvas size `content + 2 × border` on each axis. -/
def computeGeometry (imgW imgH maxW maxH size edgeThickness : ℚ) : Geometry :=
  let scale := imageContentScale size
  let w0 := imgW * scale
  let h0 := imgH * scale
  let aspect := w0 / h0
  let w1 := if w0 > maxW then maxW else w0
  let h1 := if w0 > maxW then maxW / aspect else h0
  let h2 := if h1 > maxH then maxH else h1
  let w2 := if h1 > maxH then maxH * aspect else w1
  let b := mapRange edgeThickness 0 100 0 (min w2 h2 * 0.25)
  ⟨w2, h2, b, w2 + 2 * b, h2 + 2 * b⟩

/-- Shadow opacity mapping, image-preview.tsx line 192:
`mapRange(effects.animShadowStrength, 0, 100, 0, 0.8)`. -/
def shadowStrengthVal (shadowStrength : ℚ) : ℚ :=
  mapRange shadowStrength 0 100 0 0.8

/-- The shadow pass runs only when the mapped strength is positive
(image-preview.tsx lines 280 and 307). -/
def shadowPainted (shadowStrength : ℚ) : Bool :=
  decide (shadowStrengthVal shadowStrength > 0)

/-- Texture opacity mapping, image-preview.tsx line 350:
`mapRange(effects.animTextureStrength, 0, 100, 0, 0.4)`. -/
def textureStrengthVal (animTextureStrength : ℚ) : ℚ :=
  mapRange animTextureStrength 0 100 0 0.4

/-- Condition guarding the whole torn-edge branch, image-preview.tsx
line 194: `borderThickness > 0.01 && effects.animEdgeIntensity > 0`. -/
def useTornEffect (borderThickness edgeIntensity : ℚ) : Bool :=
  decide (borderThickness > 0.01) && decide (edgeIntensity > 0)

/-- The silhouette is either the plain canvas rectangle
(image-preview.tsx line 305) or the procedurally torn outline. -/
inductive PaperPathShape where
  | rect (w h : ℚ)
  | torn
deriving DecidableEq, Repr

/-- Which silhouette the renderer builds (image-preview.tsx
lines 194–305): the torn outline when `useTornEffect` holds, otherwise
the plain rectangle covering the whole canvas. -/
def paperPathShape (g : Geometry) (edgeIntensity : ℚ) : PaperPathShape :=
  if useTornEffect g.borderThickness edgeIntensity then .torn
  else .rect g.canvasWidth g.canvasHeight

/-- Key-point count of a noise profile, image-preview.tsx line 121:
`Math.max(8, Math.floor(mapRange(edgeDetails, 0, 100, 8, 40)))`. -/
def numKeyPoints (edgeDetails : ℚ) : ℕ :=
  (max 8 ⌊mapRange edgeDetails 0 100 8 40⌋).toNat

/-- One sample pushed by `generateTornEdgeProfile` (image-preview.tsx
lines 102–115) at index `i` of a profile with `n` key points, with
`rand` the value returned by `Math.random()` for this sample. -/
noncomputable def tornProfileSample (n i : ℕ) (rand : ℝ) : ℝ :=
  let progress : ℝ := (i : ℝ) / ((n : ℝ) - 1)
  let baseAmplitude := 0.3 + 0.7 * Real.sin (progress * Real.pi * 2.3)
      * Real.sin (progress * Real.pi * 1.7)
  let noise := Real.sin (progress * Real.pi * 8) * 0.4
    + Real.sin (progress * Real.pi * 16) * 0.2
    + Real.sin (progress * Real.pi * 32) * 0.1
    + (rand - 0.5) * 0.6
  baseAmplitude * noise

/-- `generateTornEdgeProfile` (image-preview.tsx lines 98–119): an
unscaled signed noise profile of `n` key points, with `rand` the
stream of `Math.random()` outcomes. -/
noncomputable def generateTornEdgeProfile (n : ℕ) (rand : ℕ → ℝ) : List ℝ :=
  (List.range n).map fun i => tornProfileSample n i (rand i)

/-- `getEnhancedDeviation` (image-preview.tsx lines 203–221): the
silhouette deviation at segment `segmentIndex` of `totalSegments`,
cosine-interpolating the two nearest profile key points, scaling by
`baseMaxDeviation` and adding the three fibrous jitter terms with
`r1, r2, r3` the outcomes of the three `Math.random()` calls. -/
noncomputable def getEnhancedDeviation (baseMaxDeviation fibrousJitterStrength : ℝ)
    (profile : List ℝ) (segmentIndex totalSegments : ℕ) (r1 r2 r3 : ℝ) : ℝ :=
  let progress : ℝ := (segmentIndex : ℝ) / (totalSegments : ℝ)
  let n := profile.length
  let keyPointIndexFloat := progress * ((n : ℝ) - 1)
  let keyPointIndex := ⌊keyPointIndexFloat⌋
  let y1 := profile.getD keyPointIndex.toNat 0
  let y2 := profile.getD (min (keyPointIndex.toNat + 1) (n - 1)) 0
  let segmentProgressInKeyPoint := keyPointIndexFloat - (keyPointIndex : ℝ)
  let interpolatedDeviation :=
    cosineInterpolate y1 y2 segmentProgressInKeyPoint * baseMaxDeviation
  let fiberNoise1 := (r1 - 0.5) * fibrousJitterStrength
  let fiberNoise2 := (r2 - 0.5) * fibrousJitterStrength * 0.5
  let fiberNoise3 := (r3 - 0.5) * fibrousJitterStrength * 0.25
  interpolatedDeviation + fiberNoise1 + fiberNoise2 + fiberNoise3

/-- The eleven style parameters (`AppliedEffects`, src/types/index.ts). -/
structure AppliedEffects where
  animSize : ℚ
  animEdgeThickness : ℚ
  animEdgeIntensity : ℚ
  animEdgeDetails : ℚ
  animCutoutStyle : ℚ
  animTextureStrength : ℚ
  animShadowOffsetX : ℚ
  animShadowOffsetY : ℚ
  animShadowBlur : ℚ
  animShadowStrength : ℚ
  animMovement : ℚ
deriving DecidableEq, Repr

/-- The four per-edge noise profiles (image-preview.tsx lines 53–58). -/
structure EdgeNoiseProfiles where
  top : List ℝ
  right : List ℝ
  bottom : List ℝ
  left : List ℝ

/-- The body of the profile-generation effect (image-preview.tsx
lines 121–128): all four profiles regenerated together, each from its
own stream of `Math.random()` outcomes. -/
noncomputable def regenerateProfiles (edgeDetails : ℚ)
    (rand : Fin 4 → ℕ → ℝ) : EdgeNoiseProfiles :=
  let n := numKeyPoints edgeDetails
  ⟨generateTornEdgeProfile n (rand 0), generateTornEdgeProfile n (rand 1),
   generateTornEdgeProfile n (rand 2), generateTornEdgeProfile n (rand 3)⟩

/-- The dependency array of the profile-generation effect
(image-preview.tsx line 129): `[animEdgeDetails, animEdgeIntensity]`. -/
structure NoiseDeps where
  edgeDetails : ℚ
  edgeIntensity : ℚ
deriving DecidableEq, Repr

/-- The dependency values read from the current parameters. -/
def noiseDeps (effects : AppliedEffects) : NoiseDeps :=
  ⟨effects.animEdgeDetails, effects.animEdgeIntensity⟩

/-- The profile store together with the dependency values it was
generated for. -/
structure ProfileState where
  deps : NoiseDeps
  profiles : EdgeNoiseProfiles

/-- React semantics of the effect at image-preview.tsx lines 97–129: on
the first render, and whenever the dependency array differs from the
previous render's, the body runs and replaces all four profiles;
otherwise the stored state is kept unchanged. -/
noncomputable def profilesAfterRender (prev : Option ProfileState)
    (effects : AppliedEffects) (rand : Fin 4 → ℕ → ℝ) : ProfileState :=
  match prev with
  | none => ⟨noiseDeps effects, regenerateProfiles effects.animEdgeDetails rand⟩
  | some s =>
    if s.deps = noiseDeps effects then s
    else ⟨noiseDeps effects, regenerateProfiles effects.animEdgeDetails rand⟩

/-- `numSegmentsPerEdge`, image-preview.tsx line 200:
`Math.max(20, Math.floor(mapRange(edgeDetails, 0, 100, 20, 100)))`. -/
def numSegmentsPerEdge (edgeDetails : ℚ) : ℤ :=
  max 20 ⌊mapRange edgeDetails 0 100 20 100⌋

/-- JavaScript division over finite doubles: a zero denominator yields a
non-finite value (`NaN` for `0/0`, `±Infinity` otherwise), modelled as
`none`. -/
def jsDiv (a b : ℚ) : Option ℚ :=
  if b = 0 then none else some (a / b)

/-- The per-edge segment count of `addTornEdgeSegments`,
image-preview.tsx line 225: the nominal count scaled by this edge's
share of the larger canvas dimension, floored with no lower clamp. -/
def edgeSegments (nPerEdge : ℤ) (edgeLen canvasW canvasH : ℚ) : ℤ :=
  ⌊(nPerEdge : ℚ) * |edgeLen| / max canvasW canvasH⌋

/-- Clamp a color channel to `[0, 255]` (image-preview.tsx
lines 363–365). -/
def clampChannel (x : ℚ) : ℚ := max 0 (min 255 x)

/-- One RGBA pixel of the canvas bitmap. -/
structure Pixel where
  r : ℚ
  g : ℚ
  b : ℚ
  a : ℚ
deriving DecidableEq, Repr

/-- Grain perturbation of one pixel (image-preview.tsx lines 361–366):
one `Math.random()` outcome per pixel perturbs R, G and B by
`(rand - 0.5) * textureStrength * 50`, clamped to `[0, 255]`; the alpha
channel is untouched. -/
def perturbPixel (textureStrength rand : ℚ) (p : Pixel) : Pixel :=
  let noise := (rand - 0.5) * textureStrength * 50
  ⟨clampChannel (p.r + noise), clampChannel (p.g + noise),
   clampChannel (p.b + noise), p.a⟩

/-- Number of fiber strokes scattered (image-preview.tsx line 372): the
loop `for (i = 0; i < W * H * 0.0005; i++)` runs `⌈W·H·0.0005⌉`
times. -/
def fiberCount (w h : ℚ) : ℕ := ⌈w * h * 0.0005⌉.toNat

/-- The texture-synthesis stage (image-preview.tsx lines 350–388): when
the mapped strength is positive, perturb every pixel of the bitmap and
scatter fiber strokes; otherwise the whole stage is skipped and the
bitmap passes through untouched. -/
def textureSynthesis (animTextureStrength : ℚ) (rand : ℕ → ℚ)
    (w h : ℚ) (pixels : List Pixel) : List Pixel × ℕ :=
  let strength := textureStrengthVal animTextureStrength
  if strength > 0 then
    (pixels.mapIdx fun i p => perturbPixel strength (rand i) p, fiberCount w h)
  else (pixels, 0)

/-- A decoded source bitmap (natural width and height). -/
structure SourceBitmap where
  width : ℚ
  height : ℚ
deriving DecidableEq, Repr

/-- Outcome of the asynchronous image load (image-preview.tsx
lines 67–94). -/
inductive LoadOutcome where
  | decodeOk
  | decodeFailed
  | readFailed
deriving DecidableEq, Repr

/-- The loader state `(baseImage, error)` after attempting to load a
non-null file (image-preview.tsx lines 67–94): decode failure and read
failure set an error message and clear the image instead of raising. -/
def loadImageState (outcome : LoadOutcome) (img : SourceBitmap) :
    Option SourceBitmap × Option String :=
  match outcome with
  | .decodeOk => (some img, none)
  | .decodeFailed => (none, some "Could not load image. Please try a different file.")
  | .readFailed => (none, some "Could not read file. Please try again.")

/-- What the draw effect paints: a centered placeholder message, a blank
canvas, or the full composite. -/
inductive Frame where
  | placeholder (message : String)
  | emptyFrame
  | rendered (g : Geometry)
deriving DecidableEq, Repr

/-- The placeholder / render branch of the draw effect
(image-preview.tsx lines 137–158): with no decoded image the canvas
shows the upload hint (no file selected and no error), the stored error
message, or stays blank; with a decoded image the composite is
rendered.  The function is total: no branch escalates an error. -/
def drawFrame (baseImage : Option SourceBitmap) (hasImageFile : Bool)
    (error : Option String) (maxW maxH size edgeThickness : ℚ) : Frame :=
  match baseImage with
  | none =>
    if !hasImageFile && error.isNone then
      .placeholder "Upload an image to see the preview"
    else
      match error with
      | some e => .placeholder e
      | none => .emptyFrame
  | some img =>
    .rendered (computeGeometry img.width img.height maxW maxH size edgeThickness)

/-- Float animation amplitude, image-preview.tsx line 394:
`mapRange(effects.animMovement, 0, 100, 0, 12)`. -/
def movementStrength (movement : ℚ) : ℚ :=
  mapRange movement 0 100 0 12

/-- Float animation period in seconds, image-preview.tsx line 395:
`mapRange(effects.animMovement, 0, 100, 15, 5)`. -/
def movementDuration (movement : ℚ) : ℚ :=
  mapRange movement 0 100 15 5

/-- The `animate-float-dynamic` class is attached exactly when
`effects.animMovement > 0` (image-preview.tsx line 407). -/
def floatAnimationApplied (movement : ℚ) : Bool :=
  decide (movement > 0)

end ArtifexCanvas

namespace ArtifexCanvas

/-! ### Supporting lemmas -/

lemma wave_sq_bound (c : ℝ) (h1 : -1 ≤ c) (h2 : c ≤ 1) :
    (1 - c^2) * (0.4 + 0.8 * c^3)^2 ≤ 0.36 := by
  nlinarith [sq_nonneg c, sq_nonneg (c-1), sq_nonneg (c+1), sq_nonneg (c^2-1),
    sq_nonneg (c^3), sq_nonneg (c^3-1), sq_nonneg (c^3+1), sq_nonneg (c^4-c),
    sq_nonneg (c^2+c), sq_nonneg (c^2-c)]

lemma wave_bound (p : ℝ) :
    |Real.sin (p * Real.pi * 8) * 0.4 + Real.sin (p * Real.pi * 16) * 0.2
      + Real.sin (p * Real.pi * 32) * 0.1| ≤ 0.6 := by
  set x := p * Real.pi * 8 with hx
  have e16 : p * Real.pi * 16 = 2 * x := by rw [hx]; ring
  have e32 : p * Real.pi * 32 = 2 * (2 * x) := by rw [hx]; ring
  rw [e16, e32, Real.sin_two_mul (2*x), Real.sin_two_mul x, Real.cos_two_mul x]
  set s := Real.sin x
  set c := Real.cos x
  have hsc : s^2 + c^2 = 1 := Real.sin_sq_add_cos_sq x
  have hc1 : -1 ≤ c := Real.neg_one_le_cos x
  have hc2 : c ≤ 1 := Real.cos_le_one x
  have hW : s * 0.4 + 2 * s * c * 0.2 + 2 * (2 * s * c) * (2 * c^2 - 1) * 0.1
      = s * (0.4 + 0.8 * c^3) := by ring
  rw [hW]
  have hsq : (s * (0.4 + 0.8 * c^3))^2 ≤ 0.36 := by
    have hkey := wave_sq_bound c hc1 hc2
    have hs2 : s^2 = 1 - c^2 := by linarith
    calc (s * (0.4 + 0.8 * c^3))^2 = s^2 * (0.4 + 0.8 * c^3)^2 := by ring
    _ = (1 - c^2) * (0.4 + 0.8 * c^3)^2 := by rw [hs2]
    _ ≤ 0.36 := hkey
  refine abs_le.mpr ⟨?_, ?_⟩ <;>
    nlinarith [hsq, sq_nonneg (s * (0.4 + 0.8 * c^3) - 0.6),
      sq_nonneg (s * (0.4 + 0.8 * c^3) + 0.6)]

lemma amp_bound (u v : ℝ) : |0.3 + 0.7 * Real.sin u * Real.sin v| ≤ 1 := by
  have hu1 := Real.neg_one_le_sin u
  have hu2 := Real.sin_le_one u
  have hv1 := Real.neg_one_le_sin v
  have hv2 := Real.sin_le_one v
  refine abs_le.mpr ⟨?_, ?_⟩ <;>
    nlinarith [sq_nonneg (Real.sin u - Real.sin v), sq_nonneg (Real.sin u + Real.sin v)]

lemma tornProfileSample_abs_le (n i : ℕ) (rand : ℝ)
    (h0 : 0 ≤ rand) (h1 : rand < 1) :
    |tornProfileSample n i rand| ≤ 0.9 := by
  unfold tornProfileSample
  set p : ℝ := (i : ℝ) / ((n : ℝ) - 1) with hp
  have hA := amp_bound (p * Real.pi * 2.3) (p * Real.pi * 1.7)
  have hW := wave_bound p
  have hr : |(rand - 0.5) * 0.6| ≤ 0.3 := by
    rw [abs_mul]
    have : |rand - 0.5| ≤ 0.5 := abs_le.mpr (by constructor <;> linarith)
    calc |rand - 0.5| * |(0.6:ℝ)| ≤ 0.5 * 0.6 := by
          rw [abs_of_nonneg (by norm_num : (0:ℝ) ≤ 0.6)]
          exact mul_le_mul_of_nonneg_right this (by norm_num)
    _ = 0.3 := by norm_num
  rw [abs_mul]
  have hnoise : |Real.sin (p * Real.pi * 8) * 0.4 + Real.sin (p * Real.pi * 16) * 0.2
      + Real.sin (p * Real.pi * 32) * 0.1 + (rand - 0.5) * 0.6| ≤ 0.9 := by
    calc |Real.sin (p * Real.pi * 8) * 0.4 + Real.sin (p * Real.pi * 16) * 0.2
        + Real.sin (p * Real.pi * 32) * 0.1 + (rand - 0.5) * 0.6|
        ≤ |Real.sin (p * Real.pi * 8) * 0.4 + Real.sin (p * Real.pi * 16) * 0.2
          + Real.sin (p * Real.pi * 32) * 0.1| + |(rand - 0.5) * 0.6| := abs_add _ _
    _ ≤ 0.6 + 0.3 := add_le_add hW hr
    _ = 0.9 := by norm_num
  calc |0.3 + 0.7 * Real.sin (p * Real.pi * 2.3) * Real.sin (p * Real.pi * 1.7)|
        * |Real.sin (p * Real.pi * 8) * 0.4 + Real.sin (p * Real.pi * 16) * 0.2
          + Real.sin (p * Real.pi * 32) * 0.1 + (rand - 0.5) * 0.6|
      ≤ 1 * 0.9 := mul_le_mul hA hnoise (abs_nonneg _) (by norm_num)
  _ = 0.9 := by norm_num

lemma getD_abs_le (l : List ℝ) (h : ∀ v ∈ l, |v| ≤ 0.9) (k : ℕ) :
    |l.getD k 0| ≤ 0.9 := by
  rcases lt_or_ge k l.length with hk | hk
  · rw [List.getD_eq_getElem l 0 hk]
    exact h _ (List.getElem_mem hk)
  · rw [List.getD_eq_default l 0 hk]
    norm_num

lemma generateTornEdgeProfile_abs_le (n : ℕ) (rand : ℕ → ℝ)
    (h : ∀ i, 0 ≤ rand i ∧ rand i < 1) :
    ∀ v ∈ generateTornEdgeProfile n rand, |v| ≤ 0.9 := by
  intro v hv
  unfold generateTornEdgeProfile at hv
  simp only [List.mem_map, List.mem_range] at hv
  obtain ⟨i, -, rfl⟩ := hv
  exact tornProfileSample_abs_le n i (rand i) (h i).1 (h i).2

lemma cosineInterpolate_abs_le (y1 y2 t : ℝ) (h1 : |y1| ≤ 0.9) (h2 : |y2| ≤ 0.9) :
    |cosineInterpolate y1 y2 t| ≤ 0.9 := by
  unfold cosineInterpolate
  have hc1 := Real.neg_one_le_cos (t * Real.pi)
  have hc2 := Real.cos_le_one (t * Real.pi)
  obtain ⟨ha, hb⟩ := abs_le.mp h1
  obtain ⟨hc, hd⟩ := abs_le.mp h2
  refine abs_le.mpr ⟨?_, ?_⟩ <;> nlinarith

/-! ### Claims -/

/-- C1: with every style parameter at 100 and any positive border
thickness `b`, the silhouette deviation — the cosine-interpolated
profile value scaled by `baseMaxDeviation = mapRange(100, 0, 100, 0,
b·0.8)` plus the three fibrous jitter terms drawn with strength
`mapRange(100, 0, 100, 0, baseMaxDeviation·0.4)` — never exceeds `b` in
magnitude, for every noise profile the generator can produce and every
outcome of the random jitter. -/
theorem c1_silhouette_deviation_within_border (b : ℝ) (hb : 0 < b)
    (rand : ℕ → ℝ) (hrand : ∀ i, 0 ≤ rand i ∧ rand i < 1)
    (segmentIndex totalSegments : ℕ) (hseg : 0 < totalSegments)
    (r1 r2 r3 : ℝ)
    (hr1 : 0 ≤ r1 ∧ r1 < 1) (hr2 : 0 ≤ r2 ∧ r2 < 1) (hr3 : 0 ≤ r3 ∧ r3 < 1) :
    |getEnhancedDeviation (mapRange 100 0 100 0 (b * 0.8))
      (mapRange 100 0 100 0 (mapRange 100 0 100 0 (b * 0.8) * 0.4))
      (generateTornEdgeProfile (numKeyPoints 100) rand)
      segmentIndex totalSegments r1 r2 r3| ≤ b := by
  have hmap : ∀ t : ℝ, mapRange 100 0 100 0 t = t := by
    intro t
    simp [mapRange]
  rw [hmap, hmap]
  unfold getEnhancedDeviation
  set profile := generateTornEdgeProfile (numKeyPoints 100) rand with hprof
  have hmem := generateTornEdgeProfile_abs_le (numKeyPoints 100) rand hrand
  rw [← hprof] at hmem
  set pr : ℝ := (segmentIndex : ℝ) / (totalSegments : ℝ)
  set kf : ℝ := pr * ((profile.length : ℝ) - 1)
  have hy1 : |profile.getD (⌊kf⌋).toNat 0| ≤ 0.9 := getD_abs_le profile hmem _
  have hy2 : |profile.getD (min ((⌊kf⌋).toNat + 1) (profile.length - 1)) 0| ≤ 0.9 :=
    getD_abs_le profile hmem _
  have hI := cosineInterpolate_abs_le _ _ (kf - (⌊kf⌋ : ℝ)) hy1 hy2
  set I := cosineInterpolate (profile.getD (⌊kf⌋).toNat 0)
      (profile.getD (min ((⌊kf⌋).toNat + 1) (profile.length - 1)) 0) (kf - (⌊kf⌋ : ℝ))
  obtain ⟨hIl, hIu⟩ := abs_le.mp hI
  refine abs_le.mpr ⟨?_, ?_⟩ <;>
    nlinarith [hr1.1, hr1.2, hr2.1, hr2.2, hr3.1, hr3.2, hb,
      mul_le_mul_of_nonneg_right hIu (le_of_lt hb),
      mul_le_mul_of_nonneg_right hIl (le_of_lt hb),
      mul_le_mul_of_nonneg_right hr1.2.le (le_of_lt hb),
      mul_le_mul_of_nonneg_right hr1.1 (le_of_lt hb)]

/-- Witness for C1 at `b = 1`, the all-one-half random streams, and the
first segment position of a single-segment edge. -/
theorem c1_silhouette_deviation_witness :
    (0:ℝ) < 1 ∧
    |getEnhancedDeviation (mapRange 100 0 100 0 (1 * 0.8))
      (mapRange 100 0 100 0 (mapRange 100 0 100 0 (1 * 0.8) * 0.4))
      (generateTornEdgeProfile (numKeyPoints 100) fun _ => 1/2)
      0 1 (1/2) (1/2) (1/2)| ≤ 1 :=
  ⟨by norm_num,
    c1_silhouette_deviation_within_border 1 (by norm_num) (fun _ => 1/2)
      (fun _ => by norm_num) 0 1 (by norm_num) (1/2) (1/2) (1/2)
      (by norm_num) (by norm_num) (by norm_num)⟩

/-- C3: the four noise profiles are replaced, all together, exactly when
`edgeDetails` or `edgeIntensity` changed since the previous render;
when the dependency pair is unchanged the stored profiles are identical
to the previous render's. -/
theorem c3_profile_regeneration (s : ProfileState) (effects : AppliedEffects)
    (rand : Fin 4 → ℕ → ℝ) :
    (s.deps = noiseDeps effects → profilesAfterRender (some s) effects rand = s) ∧
    (s.deps ≠ noiseDeps effects →
      profilesAfterRender (some s) effects rand =
        ⟨noiseDeps effects, regenerateProfiles effects.animEdgeDetails rand⟩) := by
  constructor
  · intro h
    simp [profilesAfterRender, h]
  · intro h
    simp [profilesAfterRender, h]

/-- Witness for C3: a render with unchanged `edgeDetails`/`edgeIntensity`
keeps the stored profiles identical. -/
theorem c3_profile_regeneration_witness :
    (⟨⟨50, 50⟩, ⟨[], [], [], []⟩⟩ : ProfileState).deps =
        noiseDeps ⟨0, 0, 50, 50, 0, 0, 0, 0, 0, 0, 0⟩ ∧
    profilesAfterRender (some ⟨⟨50, 50⟩, ⟨[], [], [], []⟩⟩)
        ⟨0, 0, 50, 50, 0, 0, 0, 0, 0, 0, 0⟩ (fun _ _ => 0) =
      ⟨⟨50, 50⟩, ⟨[], [], [], []⟩⟩ :=
  ⟨rfl, (c3_profile_regeneration ⟨⟨50, 50⟩, ⟨[], [], [], []⟩⟩
    ⟨0, 0, 50, 50, 0, 0, 0, 0, 0, 0, 0⟩ (fun _ _ => 0)).1 rfl⟩

/-- C5: with every style parameter at 0 the border thickness is 0, the
tear short-circuit is taken so the silhouette is the plain canvas
rectangle, the mapped shadow strength is 0 so no shadow pass runs, the
texture stage passes the bitmap through untouched, and the animation
amplitude is 0. -/
theorem c5_all_zero_parameters (imgW imgH maxW maxH : ℚ)
    (rand : ℕ → ℚ) (pixels : List Pixel) :
    (computeGeometry imgW imgH maxW maxH 0 0).borderThickness = 0 ∧
    useTornEffect (computeGeometry imgW imgH maxW maxH 0 0).borderThickness 0 = false ∧
    paperPathShape (computeGeometry imgW imgH maxW maxH 0 0) 0 =
      .rect (computeGeometry imgW imgH maxW maxH 0 0).canvasWidth
        (computeGeometry imgW imgH maxW maxH 0 0).canvasHeight ∧
    shadowStrengthVal 0 = 0 ∧
    shadowPainted 0 = false ∧
    textureStrengthVal 0 = 0 ∧
    textureSynthesis 0 rand (computeGeometry imgW imgH maxW maxH 0 0).canvasWidth
      (computeGeometry imgW imgH maxW maxH 0 0).canvasHeight pixels = (pixels, 0) ∧
    movementStrength 0 = 0 ∧
    floatAnimationApplied 0 = false := by
  have hb : (computeGeometry imgW imgH maxW maxH 0 0).borderThickness = 0 := by
    simp [computeGeometry, mapRange]
  have ht : useTornEffect (computeGeometry imgW imgH maxW maxH 0 0).borderThickness 0
      = false := by
    rw [hb]
    norm_num [useTornEffect]
  refine ⟨hb, ht, ?_, by norm_num [shadowStrengthVal, mapRange],
    by norm_num [shadowPainted, shadowStrengthVal, mapRange],
    by norm_num [textureStrengthVal, mapRange], ?_,
    by norm_num [movementStrength, mapRange],
    by norm_num [floatAnimationApplied]⟩
  · rw [paperPathShape, ht]
    simp
  · simp [textureSynthesis, textureStrengthVal, mapRange]

/-- The same render with the texture-synthesis block removed: the bitmap
passes through and no fiber strokes are drawn. -/
def textureSynthesisRemoved (pixels : List Pixel) : List Pixel × ℕ := (pixels, 0)

/-- C6: with `animTextureStrength = 0` the texture stage returns the
incoming bitmap bit-identically and scatters no fibers — the render
equals the same render with texture synthesis skipped entirely, for
every bitmap (hence every source image and every other parameter
setting). -/
theorem c6_texture_zero_noop (rand : ℕ → ℚ) (w h : ℚ) (pixels : List Pixel) :
    textureSynthesis 0 rand w h pixels = textureSynthesisRemoved pixels := by
  simp [textureSynthesis, textureSynthesisRemoved, textureStrengthVal, mapRange]

/-- C7: the Motion Mapper maps movement to amplitude
`mapRange(movement, 0, 100, 0, 12)` and period
`mapRange(movement, 0, 100, 15, 5)` with `P_slow = 15 > P_fast = 5`; at
`movement = 0` the amplitude is 0 and the animation class is withheld;
at `movement = 100` the amplitude is the maximum and the period the
minimum over the whole parameter range. -/
theorem c7_motion_mapper (movement : ℚ) (h0 : 0 ≤ movement) (h100 : movement ≤ 100) :
    movementStrength movement = mapRange movement 0 100 0 12 ∧
    movementDuration movement = mapRange movement 0 100 15 5 ∧
    (5 : ℚ) < 15 ∧
    movementStrength 0 = 0 ∧
    floatAnimationApplied 0 = false ∧
    movementStrength 100 = 12 ∧
    movementDuration 100 = 5 ∧
    movementStrength movement ≤ 12 ∧
    5 ≤ movementDuration movement := by
  have hs : movementStrength movement = 3 * movement / 25 := by
    unfold movementStrength mapRange
    norm_num
    ring
  have hd : movementDuration movement = 15 - movement / 10 := by
    unfold movementDuration mapRange
    norm_num
    ring
  refine ⟨rfl, rfl, by norm_num, by norm_num [movementStrength, mapRange],
    by norm_num [floatAnimationApplied], by norm_num [movementStrength, mapRange],
    by norm_num [movementDuration, mapRange], ?_, ?_⟩
  · rw [hs]; linarith
  · rw [hd]; linarith

/-- Witness for C7 at `movement = 100`. -/
theorem c7_motion_mapper_witness :
    (0:ℚ) ≤ 100 ∧ movementStrength 100 ≤ 12 ∧ 5 ≤ movementDuration 100 :=
  ⟨by norm_num, ((c7_motion_mapper 100 (by norm_num) (by norm_num)).2.2.2.2.2.2.2.1),
    ((c7_motion_mapper 100 (by norm_num) (by norm_num)).2.2.2.2.2.2.2.2)⟩

/-- C8: `mapRange` with coinciding input bounds returns `outMin` for
every value and output pair, and with distinct bounds is exactly the
linear interpolation
`((value − inMin) · (outMax − outMin)) / (inMax − inMin) + outMin`. -/
theorem c8_mapRange_total (v a b o1 o2 : ℚ) :
    mapRange v a a o1 o2 = o1 ∧
    (a ≠ b → mapRange v a b o1 o2 = ((v - a) * (o2 - o1)) / (b - a) + o1) := by
  constructor
  · simp [mapRange]
  · intro h
    simp [mapRange, h]

/-- Witness for C8 at `v = 7, a = 3, b = 5, o1 = 1, o2 = 2`. -/
theorem c8_mapRange_total_witness :
    (3 : ℚ) ≠ 5 ∧ mapRange (7:ℚ) 3 5 1 2 = ((7 - 3) * (2 - 1)) / (5 - 3) + 1 :=
  ⟨by norm_num, (c8_mapRange_total 7 3 5 1 2).2 (by norm_num)⟩

/-- C9: a null source image renders the centered upload hint, a decode
failure renders the distinct load-error message, and both cases yield a
placeholder frame from the total draw function instead of propagating
an error. -/
theorem c9_placeholder_frames (maxW maxH size et : ℚ) (img : SourceBitmap) :
    drawFrame none false none maxW maxH size et =
      .placeholder "Upload an image to see the preview" ∧
    drawFrame (loadImageState .decodeFailed img).1 true
        (loadImageState .decodeFailed img).2 maxW maxH size et =
      .placeholder "Could not load image. Please try a different file." ∧
    ("Upload an image to see the preview" : String) ≠
      "Could not load image. Please try a different file." := by
  refine ⟨rfl, rfl, by decide⟩

/-- C10: the content-scale mapping is unclamped below its nominal output
range — for `size ∈ [0, 10)` it is strictly below 0.2, at `size = 0` it
equals `0.2 − 8/90 = 1/9` — yet it stays strictly positive on `[0, 100]`,
so the scaled content dimensions stay positive. -/
theorem c10_content_scale_unclamped_positive (size imgW imgH : ℚ)
    (h0 : 0 ≤ size) (h100 : size ≤ 100) (hw : 0 < imgW) (hh : 0 < imgH) :
    (size < 10 → imageContentScale size < 0.2) ∧
    imageContentScale 0 = 0.2 - 8/90 ∧
    0 < imageContentScale size ∧
    0 < imgW * imageContentScale size ∧
    0 < imgH * imageContentScale size := by
  have hval : imageContentScale size = (2 * size + 25) / 225 := by
    unfold imageContentScale mapRange
    norm_num
    ring
  have hpos : 0 < imageContentScale size := by
    rw [hval]
    positivity
  refine ⟨?_, by norm_num [imageContentScale, mapRange], hpos,
    mul_pos hw hpos, mul_pos hh hpos⟩
  intro hlt
  rw [hval]
  norm_num
  linarith

/-- Witness for C10 at `size = 5` with a 1×1 image. -/
theorem c10_content_scale_witness :
    ((0:ℚ) ≤ 5 ∧ (5:ℚ) ≤ 100 ∧ (0:ℚ) < 1) ∧
    (0 < imageContentScale 5 ∧ 0 < (1:ℚ) * imageContentScale 5) :=
  ⟨⟨by norm_num, by norm_num, by norm_num⟩,
    (c10_content_scale_unclamped_positive 5 1 1 (by norm_num) (by norm_num)
      (by norm_num) (by norm_num)).2.2.1,
    (c10_content_scale_unclamped_positive 5 1 1 (by norm_num) (by norm_num)
      (by norm_num) (by norm_num)).2.2.2.1⟩

/-- C4 fails on the code: for a strongly skewed source image the
per-edge segment count computed inside `addTornEdgeSegments` floors to
0 even though the torn branch is active, and the first loop iteration
computes `progress = 0 / 0`, a `NaN` that propagates into the
silhouette coordinates.  Evaluation at image 1×1000, container 600×500,
`size = 50`, `edgeThickness = 100`, `edgeIntensity = 50`,
`edgeDetails = 50`: the nominal count is floor-clamped to 60, but the
top edge's count is 0 and the division is undefined. -/
theorem c4_zero_segments_nan :
    numSegmentsPerEdge 50 = 60 ∧
    (computeGeometry 1 1000 600 500 50 100).borderThickness = 1/8 ∧
    useTornEffect (computeGeometry 1 1000 600 500 50 100).borderThickness 50 = true ∧
    edgeSegments (numSegmentsPerEdge 50)
      (computeGeometry 1 1000 600 500 50 100).canvasWidth
      (computeGeometry 1 1000 600 500 50 100).canvasWidth
      (computeGeometry 1 1000 600 500 50 100).canvasHeight = 0 ∧
    jsDiv 0 ((edgeSegments (numSegmentsPerEdge 50)
      (computeGeometry 1 1000 600 500 50 100).canvasWidth
      (computeGeometry 1 1000 600 500 50 100).canvasWidth
      (computeGeometry 1 1000 600 500 50 100).canvasHeight : ℤ) : ℚ) = none := by
  have hn : numSegmentsPerEdge 50 = 60 := by
    norm_num [numSegmentsPerEdge, mapRange]
  have hg : computeGeometry 1 1000 600 500 50 100 = ⟨1/2, 500, 1/8, 3/4, 2001/4⟩ := by
    norm_num [computeGeometry, imageContentScale, mapRange]
  have hseg : edgeSegments (numSegmentsPerEdge 50)
      (computeGeometry 1 1000 600 500 50 100).canvasWidth
      (computeGeometry 1 1000 600 500 50 100).canvasWidth
      (computeGeometry 1 1000 600 500 50 100).canvasHeight = 0 := by
    rw [hn, hg]
    unfold edgeSegments
    rw [show |(3:ℚ)/4| = 3/4 from abs_of_nonneg (by norm_num)]
    norm_num
  refine ⟨hn, ?_, ?_, hseg, ?_⟩
  · rw [hg]
  · rw [hg]
    norm_num [useTornEffect]
  · rw [hseg]
    rfl

/-- C2: the Geometry Scaler computes `contentScale = mapRange(size, 10,
100, 0.2, 1.0)` (equal to 5/9 = 0.555… at `size = 50`), clamps the
scaled image shrink-only to the container bounds preserving the aspect
ratio (width first, then height, the result fitting both bounds and
staying positive), computes `borderThickness = mapRange(edgeThickness,
0, 100, 0, min(contentWidth, contentHeight) · 0.25)` (`k = 0.25`), and
the final canvas equals the content plus `2 × borderThickness` on each
axis. -/
theorem c2_geometry_scaler (imgW imgH maxW maxH size edgeThickness : ℚ)
    (hw : 0 < imgW) (hh : 0 < imgH) (hmw : 0 < maxW) (hmh : 0 < maxH)
    (hs0 : 0 ≤ size) (hs1 : size ≤ 100) :
    imageContentScale 50 = 5 / 9 ∧
    (computeGeometry imgW imgH maxW maxH size edgeThickness).contentWidth ≤ maxW ∧
    (computeGeometry imgW imgH maxW maxH size edgeThickness).contentHeight ≤ maxH ∧
    (computeGeometry imgW imgH maxW maxH size edgeThickness).contentWidth ≤
      imgW * imageContentScale size ∧
    (computeGeometry imgW imgH maxW maxH size edgeThickness).contentHeight ≤
      imgH * imageContentScale size ∧
    0 < (computeGeometry imgW imgH maxW maxH size edgeThickness).contentWidth ∧
    0 < (computeGeometry imgW imgH maxW maxH size edgeThickness).contentHeight ∧
    (computeGeometry imgW imgH maxW maxH size edgeThickness).contentWidth *
        (imgH * imageContentScale size) =
      (computeGeometry imgW imgH maxW maxH size edgeThickness).contentHeight *
        (imgW * imageContentScale size) ∧
    (computeGeometry imgW imgH maxW maxH size edgeThickness).borderThickness =
      mapRange edgeThickness 0 100 0
        (min (computeGeometry imgW imgH maxW maxH size edgeThickness).contentWidth
          (computeGeometry imgW imgH maxW maxH size edgeThickness).contentHeight * 0.25) ∧
    (computeGeometry imgW imgH maxW maxH size edgeThickness).canvasWidth =
      (computeGeometry imgW imgH maxW maxH size edgeThickness).contentWidth +
        2 * (computeGeometry imgW imgH maxW maxH size edgeThickness).borderThickness ∧
    (computeGeometry imgW imgH maxW maxH size edgeThickness).canvasHeight =
      (computeGeometry imgW imgH maxW maxH size edgeThickness).contentHeight +
        2 * (computeGeometry imgW imgH maxW maxH size edgeThickness).borderThickness := by
  have hscale : 0 < imageContentScale size := by
    have hval : imageContentScale size = (2 * size + 25) / 225 := by
      unfold imageContentScale mapRange
      norm_num
      ring
    rw [hval]
    positivity
  have hw0 : 0 < imgW * imageContentScale size := mul_pos hw hscale
  have hh0 : 0 < imgH * imageContentScale size := mul_pos hh hscale
  have hApos : 0 < imgW * imageContentScale size / (imgH * imageContentScale size) :=
    div_pos hw0 hh0
  have hAc : imgW * imageContentScale size / (imgH * imageContentScale size) *
      (imgH * imageContentScale size) = imgW * imageContentScale size :=
    div_mul_cancel₀ _ (ne_of_gt hh0)
  have hBc : maxW / (imgW * imageContentScale size / (imgH * imageContentScale size)) *
      (imgW * imageContentScale size / (imgH * imageContentScale size)) = maxW :=
    div_mul_cancel₀ _ (ne_of_gt hApos)
  refine ⟨by unfold imageContentScale mapRange; norm_num, ?_, ?_, ?_, ?_, ?_, ?_, ?_,
    rfl, rfl, rfl⟩
  · simp only [computeGeometry]
    split_ifs with u1 u2 u3
    · nlinarith [mul_lt_mul_of_pos_right u2 hApos, hBc]
    · exact le_refl maxW
    · nlinarith [mul_lt_mul_of_pos_right u3 hApos, hAc, u1]
    · linarith
  · simp only [computeGeometry]
    split_ifs with u1 u2 u3
    · exact le_refl maxH
    · linarith
    · exact le_refl maxH
    · linarith
  · simp only [computeGeometry]
    split_ifs with u1 u2 u3
    · nlinarith [mul_lt_mul_of_pos_right u2 hApos, hBc, u1]
    · linarith
    · nlinarith [mul_lt_mul_of_pos_right u3 hApos, hAc]
    · exact le_refl _
  · simp only [computeGeometry]
    split_ifs with u1 u2 u3
    · nlinarith [hAc, hBc, hApos, u1, u2]
    · nlinarith [hAc, hBc, hApos, u1]
    · linarith
    · exact le_refl _
  · simp only [computeGeometry]
    split_ifs with u1 u2 u3
    · exact mul_pos hmh hApos
    · exact hmw
    · exact mul_pos hmh hApos
    · exact hw0
  · simp only [computeGeometry]
    split_ifs with u1 u2 u3
    · exact hmh
    · exact div_pos hmw hApos
    · exact hmh
    · exact hh0
  · simp only [computeGeometry]
    split_ifs with u1 u2 u3
    · linear_combination maxH * hAc
    · linear_combination maxW / (imgW * imageContentScale size /
        (imgH * imageContentScale size)) * hAc - imgH * imageContentScale size * hBc
    · linear_combination maxH * hAc
    · ring

/-- Witness for C2 at a 4×3 image in a 600×500 container, `size = 50`,
`edgeThickness = 35`. -/
theorem c2_geometry_scaler_witness :
    ((0:ℚ) < 4 ∧ (0:ℚ) < 3 ∧ (0:ℚ) < 600 ∧ (0:ℚ) < 500 ∧
      (0:ℚ) ≤ 50 ∧ (50:ℚ) ≤ 100) ∧
    imageContentScale 50 = 5 / 9 ∧
    (computeGeometry 4 3 600 500 50 35).contentWidth ≤ 600 :=
  ⟨⟨by norm_num, by norm_num, by norm_num, by norm_num, by norm_num, by norm_num⟩,
    (c2_geometry_scaler 4 3 600 500 50 35 (by norm_num) (by norm_num) (by norm_num)
      (by norm_num) (by norm_num) (by norm_num)).1,
    (c2_geometry_scaler 4 3 600 500 50 35 (by norm_num) (by norm_num) (by norm_num)
      (by norm_num) (by norm_num) (by norm_num)).2.1⟩

end ArtifexCanvas
